import Mathlib

/-!
Shallow embedding of the zero-knowledge proof issuance/verification layer of
the SatHack-25 repository (`ai-models/transaction_validator/`): the proof
object model, the circuit registry, the prover (`ZKTransactionProver`,
`ZKBalanceProver`, `ZKIdentityProver`) and the verifier
(`ZKTransactionVerifier`), plus the JSON serialization helpers of
`ZKUtils`.

Modelling conventions:
* Python strings are Lean `String`s; Python `int` timestamps are `Nat`
  (clock values in seconds).  Each operation that reads the wall clock
  takes the current time as an explicit `Nat` argument; several reads of
  the clock inside one call are modelled as observing the same value.
* SHA-256 / HMAC-SHA-256 hex digests are modelled symbolically by the free
  algebra `Digest` (standard symbolic-crypto collision-freeness: distinct
  applications give distinct digests).  `Digest.render` is an injective
  stand-in for the hex rendering; a real SHA-256 hexdigest is always 64
  lowercase hex characters, which `hexFormatOk` reflects.
* Python `dict`s with string keys are association lists with
  first-match lookup and replace-in-place-or-append assignment
  (`dictGet` / `dictInsert`), matching dict insertion-order semantics.
* Wall-clock derived fields that no claim depends on
  (`verification_time`, the cache entry timestamp) are omitted.
-/

/-- Python `list.startswith`-style prefix test on character lists. -/
def listPrefixB : List Char → List Char → Bool
  | [], _ => true
  | _ :: _, [] => false
  | a :: as, b :: bs => a == b && listPrefixB as bs

/-- Substring occurrence test on character lists: Python's `needle in hay`. -/
def listInfixB (p : List Char) : List Char → Bool
  | [] => p.isEmpty
  | b :: bs => listPrefixB p (b :: bs) || listInfixB p bs

/-- Python's `needle in hay` substring containment on strings. -/
def pyIn (needle hay : String) : Bool :=
  listInfixB needle.data hay.data

/-- Python `' '.join(xs)`. -/
def joinSpace : List String → String
  | [] => ""
  | [s] => s
  | s :: rest => s ++ " " ++ joinSpace rest

/-- Python `''.join(xs)` (plain concatenation). -/
def joinEmpty (xs : List String) : String :=
  String.join xs

/-- Symbolic hash digests: SHA-256 of a message, or HMAC-SHA-256 of a
message under a key (free algebra; no collisions between distinct
applications, reflecting the collision resistance of the real functions). -/
inductive Digest where
  | sha256 (msg : String)
  | hmacSha256 (key : String) (msg : String)
deriving DecidableEq, Repr

/-- Injective textual stand-in for `hexdigest()` of a symbolic digest. -/
def Digest.render : Digest → String
  | .sha256 m => "(sha256 " ++ m ++ ")"
  | .hmacSha256 k m => "(hmac-sha256 " ++ k ++ " " ++ m ++ ")"

/-- A Python value as stored in the string-keyed dicts of this code
(`proof_data`, verification `details`): only flat atoms occur there.
`enumV` stands for a `ProofType` enum member (relevant to JSON
serialization, which rejects it); `digest` is a hex-digest string. -/
inductive PyAtom where
  | str (s : String)
  | int (n : Int)
  | bool (b : Bool)
  | noneV
  | digest (d : Digest)
  | enumV (value : String)
deriving DecidableEq, Repr

/-- Python truthiness of an atom (`if value:`). -/
def PyAtom.truthy : PyAtom → Bool
  | .str s => s ≠ ""
  | .int n => n ≠ 0
  | .bool b => b
  | .noneV => false
  | .digest _ => true
  | .enumV _ => true

/-- `d.get(key)` on a string-keyed dict (first matching key). -/
def dictGet (d : List (String × PyAtom)) (key : String) : Option PyAtom :=
  match d with
  | [] => none
  | (k, v) :: rest => if k = key then some v else dictGet rest key

/-- `d[key] = value` on a dict: replace in place or append (insertion
order preserved, as for Python dicts). -/
def dictInsert {α : Type} : List (String × α) → String → α → List (String × α)
  | [], k, v => [(k, v)]
  | (k', v') :: rest, k, v =>
    if k' = k then (k, v) :: rest else (k', v') :: dictInsert rest k v

/-- `ProofType` enum from `zk_proofs.py`. -/
inductive ProofType where
  | balance_sufficiency
  | address_ownership
  | transaction_validity
  | amount_range
  | gas_sufficiency
  | no_double_spend
deriving DecidableEq, Repr

/-- The `.value` string of each enum member. -/
def ProofType.value : ProofType → String
  | .balance_sufficiency => "balance_sufficiency"
  | .address_ownership => "address_ownership"
  | .transaction_validity => "transaction_validity"
  | .amount_range => "amount_range"
  | .gas_sufficiency => "gas_sufficiency"
  | .no_double_spend => "no_double_spend"

/-- `ProofType(s)`: enum lookup by value; `none` models the `ValueError`
Python raises when `s` is not a member value (e.g. the
`"identity_verification"` string used by `zk_identity_proofs.py`). -/
def ProofType.fromValue (s : String) : Option ProofType :=
  if s = "balance_sufficiency" then some .balance_sufficiency
  else if s = "address_ownership" then some .address_ownership
  else if s = "transaction_validity" then some .transaction_validity
  else if s = "amount_range" then some .amount_range
  else if s = "gas_sufficiency" then some .gas_sufficiency
  else if s = "no_double_spend" then some .no_double_spend
  else none

/-- `CircuitParams` dataclass. -/
structure CircuitParams where
  circuit_id : String
  constraints : Nat
  public_inputs : Nat
  private_inputs : Nat
  complexity : String
deriving DecidableEq, Repr

/-- `ZKTransactionProver._initialize_circuits`: the circuit registry,
keyed by `ProofType.value` (the keys cover exactly the six members, so the
lookup is total on `ProofType`). -/
def initialize_circuits : ProofType → CircuitParams
  | .balance_sufficiency =>
    { circuit_id := "balance_suffiency_v1", constraints := 1500
      public_inputs := 3, private_inputs := 2, complexity := "medium" }
  | .address_ownership =>
    { circuit_id := "address_ownership_v1", constraints := 800
      public_inputs := 2, private_inputs := 1, complexity := "low" }
  | .transaction_validity =>
    { circuit_id := "transaction_validity_v1", constraints := 2500
      public_inputs := 5, private_inputs := 3, complexity := "high" }
  | .amount_range =>
    { circuit_id := "amount_range_v1", constraints := 1200
      public_inputs := 2, private_inputs := 1, complexity := "low" }
  | .gas_sufficiency =>
    { circuit_id := "gas_sufficiency_v1", constraints := 1000
      public_inputs := 3, private_inputs := 2, complexity := "medium" }
  | .no_double_spend =>
    { circuit_id := "no_double_spend_v1", constraints := 2000
      public_inputs := 4, private_inputs := 2, complexity := "high" }

/-- `ZKUtils.calculate_proof_complexity` from `utils.py`. -/
def calculate_proof_complexity (constraints public_inputs private_inputs : Nat) : String :=
  let complexity_score := constraints + public_inputs * 10 + private_inputs * 20
  if complexity_score < 1000 then "low"
  else if complexity_score < 5000 then "medium"
  else "high"

/-- `ZKProof` dataclass.  `signature` is `Optional[str]`; honest and
forged signatures are hex digests, modelled as symbolic `Digest`s. -/
structure ZKProof where
  proof_id : String
  proof_type : ProofType
  proof_data : List (String × PyAtom)
  public_inputs : List String
  verification_key : String
  timestamp : Nat
  expiration : Nat
  signature : Option Digest
deriving DecidableEq, Repr

/-- `ZKTransactionProver._generate_salt`: sha256 of time and secret seed,
hexdigest truncated to 16 characters. -/
def generate_salt (seed : String) (t : Nat) : String :=
  ((Digest.sha256 (toString t ++ "_" ++ seed)).render).take 16

/-- `ZKTransactionProver._generate_proof_id`. -/
def generate_proof_id (seed address ptype : String) (t : Nat) : String :=
  ((Digest.sha256
    (address ++ "_" ++ ptype ++ "_" ++ toString t ++ "_" ++ generate_salt seed t)).render).take 32

/-- `ZKTransactionProver._generate_verification_key`. -/
def generate_verification_key (seed proof_id : String) : String :=
  (Digest.sha256 ("verify_" ++ proof_id ++ "_" ++ seed)).render

/-- `ZKTransactionProver._sign_proof`: an HMAC-SHA-256 keyed by the
prover's secret seed over `proof_id + ''.join(public_inputs) + str(now)`
(the signing time is read from the clock inside the method). -/
def sign_proof (seed proof_id : String) (public_inputs : List String) (t : Nat) : Digest :=
  Digest.hmacSha256 seed (proof_id ++ joinEmpty public_inputs ++ toString t)

/-- `ZKTransactionProver._hash_value`. -/
def hash_value (value : String) : String :=
  (Digest.sha256 value).render

/-- `json.dumps` of a flat string-keyed dict (`sort_keys=True`): callers
pass the key-value pairs already sorted by key, values pre-rendered. -/
def jsonObj (kvs : List (String × String)) : String :=
  "\x7b" ++ String.intercalate ", "
    (kvs.map fun kv => "\"" ++ kv.1 ++ "\": " ++ kv.2) ++ "\x7d"

/-- JSON rendering of a string value (honest payloads need no escaping). -/
def jsonStr (s : String) : String :=
  "\"" ++ s ++ "\""

/-- `ZKTransactionProver._simulate_proof_generation`: the simulated proof
payload.  `privJson` is `json.dumps(private_inputs, sort_keys=True)`. -/
def simulate_proof_generation (publicInputs : List String) (privJson : String)
    (circuit : CircuitParams) (t : Nat) : List (String × PyAtom) :=
  [("proof_hash", .digest (.sha256 (joinEmpty publicInputs ++ privJson))),
   ("circuit_id", .str circuit.circuit_id),
   ("constraints_count", .int circuit.constraints),
   ("witness_hash", .digest (.sha256 privJson)),
   ("public_inputs_hash", .digest (.sha256 (joinEmpty publicInputs))),
   ("simulated_proof", .bool true),
   ("backend", .str "simulated_zk"),
   ("generation_timestamp", .int t)]

/-- The transaction dict passed to the prover: string-keyed fields read
with `.get` (absent keys are `none`). -/
structure TxData where
  fromAddr : Option String := none
  toAddr : Option String := none
  value : Option String := none
  gas : Option String := none
  gasPrice : Option String := none
deriving DecidableEq, Repr

/-- Value of one hexadecimal digit character, if any. -/
def hexDigitVal (c : Char) : Option Nat :=
  if '0' ≤ c ∧ c ≤ '9' then some (c.toNat - '0'.toNat)
  else if 'a' ≤ c ∧ c ≤ 'f' then some (c.toNat - 'a'.toNat + 10)
  else if 'A' ≤ c ∧ c ≤ 'F' then some (c.toNat - 'A'.toNat + 10)
  else none

/-- Accumulating base-16 parse of a digit list; `none` on a bad digit. -/
def parseHexDigits : List Char → Nat → Option Nat
  | [], acc => some acc
  | c :: cs, acc =>
    match hexDigitVal c with
    | some d => parseHexDigits cs (acc * 16 + d)
    | none => none

/-- Python `int(s, 16)` restricted to the shapes this repo passes
(an optional `0x`/`0X` prefix and hex digits); `none` models the
`ValueError` raised on malformed input. -/
def pyIntHex (s : String) : Option Nat :=
  let ds := if listPrefixB ['0', 'x'] s.data ∨ listPrefixB ['0', 'X'] s.data
    then s.data.drop 2 else s.data
  if ds.isEmpty then none else parseHexDigits ds 0

/-- `int(field, 16) if field else default`: the guard is Python
truthiness of the optional string field. -/
def hexFieldOr (field : Option String) (default : Nat) : Option Nat :=
  match field with
  | none => some default
  | some s => if s = "" then some default else pyIntHex s

/-- `ZKTransactionProver._calculate_required_amount`:
`value + gas_limit * gas_price`, parsed base-16 with defaults 0 / 21000 / 0. -/
def calculate_required_amount (td : TxData) : Option Nat := do
  let value_wei ← hexFieldOr td.value 0
  let gas_limit ← hexFieldOr td.gas 21000
  let gas_price ← hexFieldOr td.gasPrice 0
  pure (value_wei + gas_limit * gas_price)

/-- `ZKTransactionProver._get_value_range`: bucket of `value / 10^18`
ether (the Python float division is modelled as exact rational division;
no claim depends on float rounding at the bucket boundaries). -/
def get_value_range (td : TxData) : Option String := do
  let value_wei ← hexFieldOr td.value 0
  let value_eth : ℚ := (value_wei : ℚ) / (10 : ℚ) ^ 18
  pure (if value_eth < 1 / 10 then "low"
    else if value_eth < 1 then "medium"
    else if value_eth < 10 then "high"
    else "very_high")

/-- `json.dumps(transaction_data, sort_keys=True)`: only the present keys,
in sorted key order `from, gas, gasPrice, to, value`. -/
def txJson (td : TxData) : String :=
  jsonObj (List.filterMap id
    [td.fromAddr.map fun v => ("from", jsonStr v),
     td.gas.map fun v => ("gas", jsonStr v),
     td.gasPrice.map fun v => ("gasPrice", jsonStr v),
     td.toAddr.map fun v => ("to", jsonStr v),
     td.value.map fun v => ("value", jsonStr v)])

/-- `ZKTransactionProver._generate_tx_hash`. -/
def generate_tx_hash (td : TxData) : String :=
  (Digest.sha256 (txJson td)).render

/-- `ZKTransactionProver._simulate_cryptographic_proof`. -/
def simulate_cryptographic_proof (seed address : String) (t : Nat) : String :=
  (Digest.sha256 ("ownership_proof_" ++ address ++ "_" ++ generate_salt seed t)).render

/-- Lexicographic insertion sort on strings (Python `sorted`). -/
def strInsert (s : String) : List String → List String
  | [] => [s]
  | x :: xs => if s ≤ x then s :: x :: xs else x :: strInsert s xs

/-- Python `sorted` on a list of strings. -/
def strSort : List String → List String
  | [] => []
  | x :: xs => strInsert x (strSort xs)

/-- JSON rendering of a Python bool. -/
def jsonBool (b : Bool) : String :=
  if b then "true" else "false"

/-- `ZKTransactionProver.generate_balance_proof`.  `none` models the
`ValueError` raised on malformed hex in the transaction fields. -/
def generate_balance_proof (seed : String) (td : TxData) (private_balance : Int)
    (t : Nat) : Option ZKProof := do
  let proof_id := generate_proof_id seed (td.fromAddr.getD "") "balance" t
  let required_amount ← calculate_required_amount td
  let public_inputs :=
    ["required_amount_" ++ toString required_amount,
     "address_" ++ td.fromAddr.getD "",
     "balance_sufficient"]
  let privJson := jsonObj
    [("actual_balance", toString private_balance),
     ("balance_hash", jsonStr (hash_value (toString private_balance))),
     ("secret_salt", jsonStr (generate_salt seed t))]
  pure
    { proof_id := proof_id
      proof_type := .balance_sufficiency
      proof_data := simulate_proof_generation public_inputs privJson
        (initialize_circuits .balance_sufficiency) t
      public_inputs := public_inputs
      verification_key := generate_verification_key seed proof_id
      timestamp := t
      expiration := t + 3600
      signature := some (sign_proof seed proof_id public_inputs t) }

/-- `ZKTransactionProver.generate_ownership_proof`. -/
def generate_ownership_proof (seed address private_key_hash : String)
    (t : Nat) : ZKProof :=
  let proof_id := generate_proof_id seed address "ownership" t
  let public_inputs := ["address_" ++ address, "address_owned"]
  let privJson := jsonObj
    [("ownership_secret", jsonStr (generate_salt seed t)),
     ("private_key_hash", jsonStr private_key_hash),
     ("signature_proof", jsonStr (simulate_cryptographic_proof seed address t))]
  { proof_id := proof_id
    proof_type := .address_ownership
    proof_data := simulate_proof_generation public_inputs privJson
      (initialize_circuits .address_ownership) t
    public_inputs := public_inputs
    verification_key := generate_verification_key seed proof_id
    timestamp := t
    expiration := t + 7200
    signature := some (sign_proof seed proof_id public_inputs t) }

/-- The `secret_params` dict for transaction-validity proofs, with the
`.get` defaults the source applies. -/
structure SecretParams where
  signature_valid : Bool := true
  nonce_valid : Bool := true
  chain_id : Int := 1
  gas_sufficient : Bool := true
deriving DecidableEq, Repr

/-- `ZKTransactionProver.generate_transaction_validity_proof`. -/
def generate_transaction_validity_proof (seed : String) (td : TxData)
    (sp : SecretParams) (t : Nat) : Option ZKProof := do
  let proof_id := generate_proof_id seed (td.fromAddr.getD "") "transaction" t
  let range ← get_value_range td
  let public_inputs :=
    ["from_" ++ td.fromAddr.getD "",
     "to_" ++ td.toAddr.getD "",
     "value_range_" ++ range,
     "valid_signature",
     "sufficient_gas"]
  let privJson := jsonObj
    [("chain_id", toString sp.chain_id),
     ("gas_sufficient", jsonBool sp.gas_sufficient),
     ("nonce_valid", jsonBool sp.nonce_valid),
     ("signature_valid", jsonBool sp.signature_valid),
     ("validation_secret", jsonStr (generate_salt seed t))]
  pure
    { proof_id := proof_id
      proof_type := .transaction_validity
      proof_data := simulate_proof_generation public_inputs privJson
        (initialize_circuits .transaction_validity) t
      public_inputs := public_inputs
      verification_key := generate_verification_key seed proof_id
      timestamp := t
      expiration := t + 1800
      signature := some (sign_proof seed proof_id public_inputs t) }

/-- `ZKTransactionProver.generate_amount_range_proof`. -/
def generate_amount_range_proof (seed : String) (td : TxData) (actual_amount : Int)
    (t : Nat) : ZKProof :=
  let proof_id := generate_proof_id seed (td.fromAddr.getD "") "amount_range" t
  let min_amount : Nat := 0
  let max_amount : Nat := 10 * 10 ^ 18
  let public_inputs :=
    ["min_amount_" ++ toString min_amount,
     "max_amount_" ++ toString max_amount,
     "amount_in_range"]
  let privJson := jsonObj
    [("actual_amount", toString actual_amount),
     ("amount_hash", jsonStr (hash_value (toString actual_amount))),
     ("range_secret", jsonStr (generate_salt seed t))]
  { proof_id := proof_id
    proof_type := .amount_range
    proof_data := simulate_proof_generation public_inputs privJson
      (initialize_circuits .amount_range) t
    public_inputs := public_inputs
    verification_key := generate_verification_key seed proof_id
    timestamp := t
    expiration := t + 3600
    signature := some (sign_proof seed proof_id public_inputs t) }

/-- `ZKTransactionProver.generate_no_double_spend_proof`. -/
def generate_no_double_spend_proof (seed : String) (td : TxData)
    (spent_utxos : List String) (t : Nat) : ZKProof :=
  let proof_id := generate_proof_id seed (td.fromAddr.getD "") "no_double_spend" t
  let public_inputs :=
    ["address_" ++ td.fromAddr.getD "",
     "transaction_hash_" ++ generate_tx_hash td,
     "no_double_spend",
     "unique_transaction"]
  let privJson := jsonObj
    [("current_tx_hash", jsonStr (generate_tx_hash td)),
     ("double_spend_secret", jsonStr (generate_salt seed t)),
     ("spent_utxos_hash", jsonStr (hash_value (joinEmpty (strSort spent_utxos))))]
  { proof_id := proof_id
    proof_type := .no_double_spend
    proof_data := simulate_proof_generation public_inputs privJson
      (initialize_circuits .no_double_spend) t
    public_inputs := public_inputs
    verification_key := generate_verification_key seed proof_id
    timestamp := t
    expiration := t + 900
    signature := some (sign_proof seed proof_id public_inputs t) }

/-- `ZKBalanceProver.generate_balance_range_proof` from
`zk_balance_proofs.py` (inherits the `ZKTransactionProver` helpers). -/
def generate_balance_range_proof (seed : String)
    (actual_balance min_balance max_balance : Int) (t : Nat) : ZKProof :=
  let proof_id := generate_proof_id seed "balance_range" "range" t
  let public_inputs :=
    ["min_balance_" ++ toString min_balance,
     "max_balance_" ++ toString max_balance,
     "balance_in_range"]
  let privJson := jsonObj
    [("actual_balance", toString actual_balance),
     ("balance_hash", jsonStr (hash_value (toString actual_balance))),
     ("range_secret", jsonStr (generate_salt seed t))]
  { proof_id := proof_id
    proof_type := .amount_range
    proof_data := simulate_proof_generation public_inputs privJson
      (initialize_circuits .amount_range) t
    public_inputs := public_inputs
    verification_key := generate_verification_key seed proof_id
    timestamp := t
    expiration := t + 3600
    signature := some (sign_proof seed proof_id public_inputs t) }

/-- `ZKBalanceProver.generate_wealth_proof` from `zk_balance_proofs.py`. -/
def generate_wealth_proof (seed : String) (total_assets threshold : Int)
    (t : Nat) : ZKProof :=
  let proof_id := generate_proof_id seed "wealth" "threshold" t
  let public_inputs :=
    ["wealth_threshold_" ++ toString threshold,
     "wealth_requirement_met"]
  let privJson := jsonObj
    [("assets_hash", jsonStr (hash_value (toString total_assets))),
     ("total_assets", toString total_assets),
     ("wealth_secret", jsonStr (generate_salt seed t))]
  { proof_id := proof_id
    proof_type := .amount_range
    proof_data := simulate_proof_generation public_inputs privJson
      (initialize_circuits .amount_range) t
    public_inputs := public_inputs
    verification_key := generate_verification_key seed proof_id
    timestamp := t
    expiration := t + 7200
    signature := some (sign_proof seed proof_id public_inputs t) }

/-- `ZKIdentityProver._generate_identity_proof_id` from
`zk_identity_proofs.py` (salts use the identity seed). -/
def generate_identity_proof_id (seed ptype : String) (t : Nat) : String :=
  ((Digest.sha256
    ("identity_" ++ ptype ++ "_" ++ toString t ++ "_" ++ generate_salt seed t)).render).take 32

/-- `ZKIdentityProver._simulate_identity_proof_generation`. -/
def simulate_identity_proof_generation (publicInputs : List String)
    (privJson : String) : List (String × PyAtom) :=
  [("proof_hash", .digest (.sha256 (joinEmpty publicInputs ++ privJson))),
   ("identity_circuit", .str "identity_verification_v1"),
   ("constraints", .int 500),
   ("witness_hash", .digest (.sha256 privJson)),
   ("simulated_proof", .bool true)]

/-- `ZKIdentityProver.generate_age_proof`: the source constructs
`ProofType("identity_verification")`, which is not a member value of the
enum, so Python raises `ValueError` and no proof is returned (`none`). -/
def generate_age_proof (seed : String) (actual_age minimum_age : Int)
    (t : Nat) : Option ZKProof := do
  let proof_id := generate_identity_proof_id seed "age" t
  let public_inputs := ["min_age_" ++ toString minimum_age, "age_requirement_met"]
  let privJson := jsonObj
    [("actual_age", toString actual_age),
     ("age_hash", jsonStr (hash_value (toString actual_age))),
     ("age_secret", jsonStr (generate_salt seed t))]
  let pt ← ProofType.fromValue "identity_verification"
  pure
    { proof_id := proof_id
      proof_type := pt
      proof_data := simulate_identity_proof_generation public_inputs privJson
      public_inputs := public_inputs
      verification_key := (Digest.sha256 ("identity_verify_" ++ proof_id ++ "_" ++ seed)).render
      timestamp := t
      expiration := t + 86400
      signature := some (.sha256 (proof_id ++ joinEmpty public_inputs ++ toString t)) }

/-- `ZKIdentityProver.generate_kyc_proof`: as for age proofs, the
`ProofType("identity_verification")` lookup raises `ValueError` (`none`). -/
def generate_kyc_proof (seed : String) (kyc_status : Bool) (required_level : String)
    (t : Nat) : Option ZKProof := do
  let proof_id := generate_identity_proof_id seed "kyc" t
  let public_inputs := ["kyc_level_" ++ required_level, "kyc_requirement_met"]
  let privJson := jsonObj
    [("actual_kyc_status", jsonBool kyc_status),
     ("kyc_level", jsonStr required_level),
     ("kyc_secret", jsonStr (generate_salt seed t))]
  let pt ← ProofType.fromValue "identity_verification"
  pure
    { proof_id := proof_id
      proof_type := pt
      proof_data := simulate_identity_proof_generation public_inputs privJson
      public_inputs := public_inputs
      verification_key := (Digest.sha256 ("identity_verify_" ++ proof_id ++ "_" ++ seed)).render
      timestamp := t
      expiration := t + 604800
      signature := some (.sha256 (proof_id ++ joinEmpty public_inputs ++ toString t)) }

/-- `ZKTransactionVerifier._verify_proof_signature`: recomputes a plain
(unkeyed) SHA-256 over `proof_id + ''.join(public_inputs) + str(timestamp)`
and compares it to the attached signature; a missing (falsy) signature
fails immediately. -/
def verify_proof_signature (p : ZKProof) : Bool :=
  match p.signature with
  | none => false
  | some sig =>
    sig == Digest.sha256 (p.proof_id ++ joinEmpty p.public_inputs ++ toString p.timestamp)

/-- `ZKTransactionVerifier._verify_proof_structure`: the required fields
must be truthy (`proof_type`, an enum member, always is) and the creation
timestamp at most 5 minutes in the future. -/
def verify_proof_structure (now : Nat) (p : ZKProof) : Bool :=
  p.proof_id != "" && !p.proof_data.isEmpty && !p.public_inputs.isEmpty &&
    p.timestamp != 0 && p.expiration != 0 && !(decide (p.timestamp > now + 300))

/-- Format check on a `proof_hash` value: 64 lowercase hex characters.
A symbolic digest stands for a real SHA-256 hexdigest, which always has
that shape.  (A non-string value at the key would raise `TypeError` in
Python; no honest or claim-relevant proof carries one.) -/
def hexFormatOk : PyAtom → Bool
  | .digest _ => true
  | .str s => s.length == 64 && s.data.all (fun c => "0123456789abcdef".data.contains c)
  | _ => false

/-- `ZKTransactionVerifier._simulate_zk_verification`. -/
def simulate_zk_verification (p : ZKProof) : Bool :=
  if p.proof_data.isEmpty then false
  else
    match dictGet p.proof_data "proof_hash" with
    | none => false
    | some v => if !v.truthy then false else hexFormatOk v

/-- Result of a type-specific check: the `details`/`warnings` keys are
always present; the `errors` key only on failure (`errorsOpt`). -/
structure TypeResult where
  details : List (String × PyAtom) := []
  warnings : List String := []
  errorsOpt : Option (List String) := none
deriving DecidableEq, Repr

/-- `ZKTransactionVerifier._verify_balance_proof`. -/
def verify_balance_proof (p : ZKProof) : TypeResult :=
  if !(pyIn "balance_sufficient" (joinSpace p.public_inputs)) then
    { errorsOpt := some ["Balance sufficiency claim missing"] }
  else if !(match dictGet p.proof_data "proof_hash" with
            | some v => v.truthy
            | none => false) then
    { errorsOpt := some ["Invalid proof data structure"] }
  else if simulate_zk_verification p then
    { details := [("balance_verified", .bool true),
                  ("verification_method", .str "zk_proof")] }
  else
    { errorsOpt := some ["Balance proof verification failed"] }

/-- `ZKTransactionVerifier._verify_ownership_proof`. -/
def verify_ownership_proof (p : ZKProof) : TypeResult :=
  if !(pyIn "address_owned" (joinSpace p.public_inputs)) then
    { errorsOpt := some ["Address ownership claim missing"] }
  else if simulate_zk_verification p then
    { details := [("ownership_verified", .bool true),
                  ("verification_method", .str "zk_proof")] }
  else
    { errorsOpt := some ["Ownership proof verification failed"] }

/-- `ZKTransactionVerifier._verify_transaction_validity_proof`. -/
def verify_transaction_validity_proof (p : ZKProof) : TypeResult :=
  if !(pyIn "valid_signature" (joinSpace p.public_inputs)) then
    { errorsOpt := some ["Required claim missing: valid_signature"] }
  else if !(pyIn "sufficient_gas" (joinSpace p.public_inputs)) then
    { errorsOpt := some ["Required claim missing: sufficient_gas"] }
  else if simulate_zk_verification p then
    { details := [("transaction_valid", .bool true),
                  ("signature_verified", .bool true),
                  ("gas_sufficient", .bool true)] }
  else
    { errorsOpt := some ["Transaction validity proof verification failed"] }

/-- `ZKTransactionVerifier._verify_amount_range_proof`. -/
def verify_amount_range_proof (p : ZKProof) : TypeResult :=
  if !(pyIn "amount_in_range" (joinSpace p.public_inputs)) then
    { errorsOpt := some ["Amount range claim missing"] }
  else if simulate_zk_verification p then
    { details := [("amount_in_range", .bool true),
                  ("range_verified", .bool true)] }
  else
    { errorsOpt := some ["Amount range proof verification failed"] }

/-- `ZKTransactionVerifier._verify_gas_sufficiency_proof`. -/
def verify_gas_sufficiency_proof (p : ZKProof) : TypeResult :=
  if !(pyIn "gas_sufficient" (joinSpace p.public_inputs)) then
    { errorsOpt := some ["Gas sufficiency claim missing"] }
  else if simulate_zk_verification p then
    { details := [("gas_sufficient", .bool true)] }
  else
    { errorsOpt := some ["Gas sufficiency proof verification failed"] }

/-- `ZKTransactionVerifier._verify_no_double_spend_proof`. -/
def verify_no_double_spend_proof (p : ZKProof) : TypeResult :=
  if !(pyIn "no_double_spend" (joinSpace p.public_inputs)) then
    { errorsOpt := some ["Required claim missing: no_double_spend"] }
  else if !(pyIn "unique_transaction" (joinSpace p.public_inputs)) then
    { errorsOpt := some ["Required claim missing: unique_transaction"] }
  else if simulate_zk_verification p then
    { details := [("no_double_spend", .bool true),
                  ("transaction_unique", .bool true)] }
  else
    { errorsOpt := some ["No double spend proof verification failed"] }

/-- `ZKTransactionVerifier._verify_by_type`: dispatch on `proof_type`
(the dispatch dict covers every enum member). -/
def verify_by_type (p : ZKProof) : TypeResult :=
  match p.proof_type with
  | .balance_sufficiency => verify_balance_proof p
  | .address_ownership => verify_ownership_proof p
  | .transaction_validity => verify_transaction_validity_proof p
  | .amount_range => verify_amount_range_proof p
  | .gas_sufficiency => verify_gas_sufficiency_proof p
  | .no_double_spend => verify_no_double_spend_proof p

/-- `ZKTransactionVerifier._calculate_confidence`.  The initial
`confidence = 80` of the source is immediately overwritten by the
per-type table lookup (whose default 75 is unreachable: the dict covers
the whole enum).  `details` is the `details` entry of the verification
result as it stands when confidence is computed. -/
def calculate_confidence (now : Nat) (p : ZKProof)
    (details : List (String × PyAtom)) : Int :=
  let confidence : Int :=
    match p.proof_type with
    | .balance_sufficiency => 85
    | .address_ownership => 90
    | .transaction_validity => 80
    | .amount_range => 75
    | .gas_sufficiency => 70
    | .no_double_spend => 85
  let proof_age : Int := (now : Int) - (p.timestamp : Int)
  let confidence :=
    if proof_age > 1800 then confidence - 20
    else if proof_age > 900 then confidence - 10
    else confidence
  let confidence :=
    if (match dictGet details "simulated_proof" with
        | some v => v.truthy
        | none => false) then confidence - 15
    else confidence
  max 0 (min 100 confidence)

/-- The verification result dict (the wall-clock `verification_time`
entry is omitted, see the module conventions). -/
structure VerificationResult where
  is_valid : Bool
  proof_id : String
  proof_type : String
  confidence : Int
  details : List (String × PyAtom)
  warnings : List String
  errors : List String
deriving DecidableEq, Repr

/-- `ZKTransactionVerifier.verify_proof`, result component.  On the
non-expired path, the signature and structure findings are accumulated,
then `verification_result.update(type_specific_result)` replaces the
`details` and `warnings` entries wholesale (every type checker returns
both keys) and replaces `errors` exactly when the type checker returned
an `errors` key; `is_valid`/`confidence` are set only when the final
error list is empty. -/
def verifyResult (now : Nat) (p : ZKProof) : VerificationResult :=
  if now > p.expiration then
    { is_valid := false
      proof_id := p.proof_id
      proof_type := p.proof_type.value
      confidence := 0
      details := [("expired", .bool true)]
      warnings := []
      errors := ["Proof has expired"] }
  else
    let errors1 := if verify_proof_signature p then [] else ["Proof signature invalid"]
    let errors2 :=
      if verify_proof_structure now p then errors1
      else errors1 ++ ["Proof structure invalid"]
    let tr := verify_by_type p
    let details3 := tr.details
    let errors3 :=
      match tr.errorsOpt with
      | some e => e
      | none => errors2
    let valid := errors3.isEmpty
    { is_valid := valid
      proof_id := p.proof_id
      proof_type := p.proof_type.value
      confidence := if valid then calculate_confidence now p details3 else 0
      details := details3
      warnings := tr.warnings
      errors := errors3 }

/-- The verifier's `verification_cache`: `proof_id → result` (the cache
entry's wall-clock timestamp is omitted; nothing reads it). -/
abbrev VState : Type := List (String × VerificationResult)

/-- `ZKTransactionVerifier.verify_proof` including its cache effect: the
expired path returns before the cache write; every other path overwrites
the entry at `proof_id`. -/
def verify_proof (now : Nat) (p : ZKProof) (st : VState) :
    VerificationResult × VState :=
  let r := verifyResult now p
  if now > p.expiration then (r, st) else (r, dictInsert st p.proof_id r)

/-- Batch verification result (`verification_time` omitted). -/
structure BatchResult where
  total_proofs : Nat
  valid_proofs : Nat
  invalid_proofs : Nat
  results : List (String × VerificationResult)
deriving DecidableEq, Repr

/-- The loop body of `ZKTransactionVerifier.batch_verify_proofs`:
accumulates the valid/invalid counters, the `results` dict keyed by
`proof_id`, and the verifier's cache state. -/
def batchGo (now : Nat) : List ZKProof →
    Nat × Nat × List (String × VerificationResult) × VState →
    Nat × Nat × List (String × VerificationResult) × VState
  | [], acc => acc
  | p :: rest, (v, iv, res, st) =>
    let out := verify_proof now p st
    batchGo now rest
      (if out.1.is_valid then v + 1 else v,
       if out.1.is_valid then iv else iv + 1,
       dictInsert res p.proof_id out.1,
       out.2)

/-- `ZKTransactionVerifier.batch_verify_proofs`. -/
def batch_verify_proofs (now : Nat) (proofs : List ZKProof) (st : VState) :
    BatchResult × VState :=
  let acc := batchGo now proofs (0, 0, [], st)
  ({ total_proofs := proofs.length
     valid_proofs := acc.1
     invalid_proofs := acc.2.1
     results := acc.2.2.1 }, acc.2.2.2)

/-- Statistics returned by `get_verification_stats` (ratios as exact
rationals in place of Python floats). -/
structure VerificationStats where
  total_verifications : Nat
  successful_verifications : Nat
  success_rate : ℚ
  cache_size : Nat
  average_confidence : ℚ
deriving DecidableEq, Repr

/-- `ZKTransactionVerifier._calculate_average_confidence`. -/
def calculate_average_confidence (st : VState) : ℚ :=
  let succ := (st.filter fun e => e.2.is_valid).map fun e => e.2.confidence
  if succ.isEmpty then 0
  else (succ.map fun c => (c : ℚ)).sum / (succ.length : ℚ)

/-- `ZKTransactionVerifier.get_verification_stats`. -/
def get_verification_stats (st : VState) : VerificationStats :=
  let total := st.length
  let successful := (st.filter fun e => e.2.is_valid).length
  { total_verifications := total
    successful_verifications := successful
    success_rate := if total > 0 then (successful : ℚ) / (total : ℚ) * 100 else 0
    cache_size := total
    average_confidence := calculate_average_confidence st }

/-- A sequence of single-proof verification calls `(now, proof)` against
one verifier, threading its cache. -/
def runCalls : List (Nat × ZKProof) → VState → VState
  | [], st => st
  | c :: rest, st => runCalls rest (verify_proof c.1 c.2 st).2

/-- A Python value occurring in `ZKProof.__dict__`: a flat atom, the list
of public-input strings, or the flat `proof_data` dict. -/
inductive PyVal where
  | atom (a : PyAtom)
  | listV (xs : List String)
  | dictV (kvs : List (String × PyAtom))
deriving DecidableEq, Repr

/-- `json.dumps` on an atom; a `ProofType` enum member is not JSON
serializable and raises `TypeError`. -/
def atomJson : PyAtom → Except String String
  | .str s => .ok (jsonStr s)
  | .int n => .ok (toString n)
  | .bool b => .ok (jsonBool b)
  | .noneV => .ok "null"
  | .digest d => .ok (jsonStr d.render)
  | .enumV _ => .error "Object of type ProofType is not JSON serializable"

/-- `json.dumps` on a `__dict__` value. -/
def pyValJson : PyVal → Except String String
  | .atom a => atomJson a
  | .listV xs => .ok ("[" ++ String.intercalate ", " (xs.map jsonStr) ++ "]")
  | .dictV kvs => do
    let parts ← kvs.mapM fun kv => do
      let v ← atomJson kv.2
      pure (jsonStr kv.1 ++ ": " ++ v)
    pure ("\x7b" ++ String.intercalate ", " parts ++ "\x7d")

/-- `proof.__dict__`: the dataclass fields in declaration order. -/
def ZKProof.pyDict (p : ZKProof) : List (String × PyVal) :=
  [("proof_id", .atom (.str p.proof_id)),
   ("proof_type", .atom (.enumV p.proof_type.value)),
   ("proof_data", .dictV p.proof_data),
   ("public_inputs", .listV p.public_inputs),
   ("verification_key", .atom (.str p.verification_key)),
   ("timestamp", .atom (.int p.timestamp)),
   ("expiration", .atom (.int p.expiration)),
   ("signature", .atom (match p.signature with
                        | some d => .digest d
                        | none => .noneV))]

/-- Serialize the key-value pairs of a `__dict__` in order, stopping at
the first non-serializable value, as `json.dumps` does. -/
def dictJsonParts : List (String × PyVal) → Except String (List String)
  | [] => .ok []
  | kv :: rest => do
    let v ← pyValJson kv.2
    let vs ← dictJsonParts rest
    pure ((jsonStr kv.1 ++ ": " ++ v) :: vs)

/-- `ZKUtils.proof_to_json` from `utils.py`:
`json.dumps(proof.__dict__, indent=2)`.  (The `indent=2` pretty-printing
is elided: serialization of a `ZKProof` never completes, because the
`proof_type` value is an enum.) -/
def proof_to_json (p : ZKProof) : Except String String := do
  let parts ← dictJsonParts p.pyDict
  pure ("\x7b" ++ String.intercalate ", " parts ++ "\x7d")

/-- The decimal digit characters (`str` of a non-negative Python int uses
only these). -/
def digitChars : List Char := "0123456789".data

/-- Left fold recording first occurrences of keys, mirroring how repeated
dict assignments keyed by `proof_id` grow a dict's key list. -/
def keyFold : List String → List String → List String
  | [], acc => acc
  | k :: ks, acc => keyFold ks (if k ∈ acc then acc else acc ++ [k])

/-- A sample transaction dict (the shape used by `examples.py`). -/
def exTx : TxData :=
  { fromAddr := some "0xA", toAddr := some "0xB"
    value := some "0xde0b6b3a7640000", gas := some "0x5208"
    gasPrice := some "0x4a817c800" }

/-- A hand-built ownership proof whose signature is exactly the unkeyed
SHA-256 the verifier recomputes, so every verification check passes: it
isolates the confidence computation on the no-errors path. -/
def exCraftedProof : ZKProof :=
  { proof_id := "p1"
    proof_type := .address_ownership
    proof_data := [("proof_hash", .digest (.sha256 "payload")),
                   ("simulated_proof", .bool true)]
    public_inputs := ["address_0xA", "address_owned"]
    verification_key := "vk"
    timestamp := 1000
    expiration := 4600
    signature := some (.sha256 ("p1" ++ joinEmpty ["address_0xA", "address_owned"] ++ toString 1000)) }

/-- A balance proof none of whose `public_inputs` elements equals
`"balance_sufficient"`, though the token occurs as a substring of one. -/
def exSubstringProof : ZKProof :=
  { proof_id := "p2"
    proof_type := .balance_sufficiency
    proof_data := [("proof_hash", .digest (.sha256 "x"))]
    public_inputs := ["not_balance_sufficient_x"]
    verification_key := "vk"
    timestamp := 1000
    expiration := 4600
    signature := none }

/-! ### Supporting lemmas -/

theorem data_append (s t : String) : (s ++ t).data = s.data ++ t.data := by
  cases s
  cases t
  rfl

theorem listPrefixB_self (l : List Char) : listPrefixB l l = true := by
  induction l with
  | nil => rfl
  | cons a as ih => simp [listPrefixB, ih]

theorem listInfixB_append_self (l p : List Char) : listInfixB p (l ++ p) = true := by
  induction l with
  | nil =>
    cases p with
    | nil => rfl
    | cons b bs => simp [listInfixB, listPrefixB_self]
  | cons a l ih => simp [listInfixB, ih]

theorem pyIn_last (x needle : String) : pyIn needle (x ++ " " ++ needle) = true := by
  have h : (x ++ " " ++ needle).data = (x.data ++ " ".data) ++ needle.data := by
    simp [data_append]
  simp only [pyIn, h, listInfixB_append_self]

theorem listPrefixB_subset {p t : List Char} (h : listPrefixB p t = true) :
    ∀ c ∈ p, c ∈ t := by
  induction p generalizing t with
  | nil => intro c hc; cases hc
  | cons a as ih =>
    cases t with
    | nil => cases h
    | cons b bs =>
      simp only [listPrefixB, Bool.and_eq_true, beq_iff_eq] at h
      intro c hc
      rcases List.mem_cons.mp hc with rfl | hc
      · exact h.1 ▸ List.mem_cons_self _ _
      · exact List.mem_cons_of_mem _ (ih h.2 c hc)

theorem listInfixB_subset {p t : List Char} (h : listInfixB p t = true) :
    ∀ c ∈ p, c ∈ t := by
  induction t with
  | nil =>
    intro c hc
    simp only [listInfixB, List.isEmpty_iff] at h
    subst h
    cases hc
  | cons b bs ih =>
    simp only [listInfixB, Bool.or_eq_true] at h
    intro c hc
    rcases h with h | h
    · exact listPrefixB_subset h c hc
    · exact List.mem_cons_of_mem _ (ih h c hc)

theorem digitChar_mem {n : Nat} (h : n < 10) : Nat.digitChar n ∈ digitChars := by
  interval_cases n <;> decide

theorem toDigitsCore_mem (fuel : Nat) :
    ∀ (n : Nat) (acc : List Char), (∀ c ∈ acc, c ∈ digitChars) →
      ∀ c ∈ Nat.toDigitsCore 10 fuel n acc, c ∈ digitChars := by
  induction fuel with
  | zero =>
    intro n acc hacc c hc
    simpa [Nat.toDigitsCore] using hacc c hc
  | succ fuel ih =>
    intro n acc hacc c hc
    have hd : Nat.digitChar (n % 10) ∈ digitChars :=
      digitChar_mem (Nat.mod_lt _ (by norm_num))
    rw [Nat.toDigitsCore] at hc
    by_cases hz : n / 10 = 0
    · simp only [hz, if_pos rfl] at hc
      rcases List.mem_cons.mp hc with rfl | hc
      · exact hd
      · exact hacc c hc
    · simp only [if_neg hz] at hc
      refine ih (n / 10) _ ?_ c hc
      intro x hx
      rcases List.mem_cons.mp hx with rfl | hx
      · exact hd
      · exact hacc x hx

theorem natRepr_mem (n : Nat) : ∀ c ∈ (Nat.repr n).data, c ∈ digitChars := by
  intro c hc
  have h : (Nat.repr n).data = Nat.toDigitsCore 10 (n + 1) n [] := rfl
  rw [h] at hc
  exact toDigitsCore_mem (n + 1) n [] (by intro x hx; cases hx) c hc

theorem intToString_mem (i : Int) : ∀ c ∈ (toString i).data, c ∈ '-' :: digitChars := by
  cases i with
  | ofNat n =>
    intro c hc
    have h : (toString (Int.ofNat n)).data = (Nat.repr n).data := rfl
    rw [h] at hc
    exact List.mem_cons_of_mem _ (natRepr_mem n c hc)
  | negSucc n =>
    intro c hc
    have h : (toString (Int.negSucc n)).data = '-' :: (Nat.repr (n + 1)).data := by
      have : toString (Int.negSucc n) = "-" ++ Nat.repr (n + 1) := rfl
      rw [this, data_append]
      rfl
    rw [h] at hc
    rcases List.mem_cons.mp hc with rfl | hc
    · exact List.mem_cons_self _ _
    · exact List.mem_cons_of_mem _ (natRepr_mem (n + 1) c hc)

theorem no_amount_token_in_balance_range (mn mx : Int) :
    pyIn "amount_in_range"
      (joinSpace ["min_balance_" ++ toString mn, "max_balance_" ++ toString mx,
        "balance_in_range"]) = false := by
  cases h : pyIn "amount_in_range"
      (joinSpace ["min_balance_" ++ toString mn, "max_balance_" ++ toString mx,
        "balance_in_range"]) with
  | false => rfl
  | true =>
    exfalso
    have hsub := listInfixB_subset (p := "amount_in_range".data) h 't' (by decide)
    have hjoin : (joinSpace ["min_balance_" ++ toString mn,
        "max_balance_" ++ toString mx, "balance_in_range"]).data
        = "min_balance_".data ++ (toString mn).data ++ " ".data ++
          ("max_balance_".data ++ (toString mx).data) ++ " ".data ++
          "balance_in_range".data := by
      simp [joinSpace, data_append]
    rw [hjoin] at hsub
    simp only [List.mem_append] at hsub
    rcases hsub with ((((hd | hd) | hd) | (hd | hd)) | hd) | hd
    · exact absurd hd (by decide)
    · exact absurd (intToString_mem mn 't' hd) (by decide)
    · exact absurd hd (by decide)
    · exact absurd hd (by decide)
    · exact absurd (intToString_mem mx 't' hd) (by decide)
    · exact absurd hd (by decide)
    · exact absurd hd (by decide)

theorem no_amount_token_in_wealth (th : Int) :
    pyIn "amount_in_range"
      (joinSpace ["wealth_threshold_" ++ toString th, "wealth_requirement_met"])
      = false := by
  cases h : pyIn "amount_in_range"
      (joinSpace ["wealth_threshold_" ++ toString th, "wealth_requirement_met"]) with
  | false => rfl
  | true =>
    exfalso
    have hsub := listInfixB_subset (p := "amount_in_range".data) h 'g' (by decide)
    have hjoin : (joinSpace ["wealth_threshold_" ++ toString th,
        "wealth_requirement_met"]).data
        = "wealth_threshold_".data ++ (toString th).data ++ " ".data ++
          "wealth_requirement_met".data := by
      simp [joinSpace, data_append]
    rw [hjoin] at hsub
    simp only [List.mem_append] at hsub
    rcases hsub with ((hd | hd) | hd) | hd
    · exact absurd hd (by decide)
    · exact absurd (intToString_mem th 'g' hd) (by decide)
    · exact absurd hd (by decide)
    · exact absurd hd (by decide)

theorem dictInsert_keys {α : Type} (st : List (String × α)) (k : String) (v : α) :
    (dictInsert st k v).map Prod.fst =
      if k ∈ st.map Prod.fst then st.map Prod.fst else st.map Prod.fst ++ [k] := by
  induction st with
  | nil => simp [dictInsert]
  | cons hd tl ih =>
    by_cases hk : hd.1 = k
    · simp [dictInsert, hk]
    · simp only [dictInsert, if_neg hk, List.map_cons, ih, List.mem_cons]
      by_cases hm : k ∈ tl.map Prod.fst
      · simp [hm, Ne.symm hk]
      · simp [hm, Ne.symm hk]

theorem verify_proof_fst (now : Nat) (p : ZKProof) (st : VState) :
    (verify_proof now p st).1 = verifyResult now p := by
  simp only [verify_proof]
  split <;> rfl

theorem keyFold_nodup : ∀ (ks acc : List String), acc.Nodup → (keyFold ks acc).Nodup := by
  intro ks
  induction ks with
  | nil => intro acc h; simpa [keyFold] using h
  | cons k rest ih =>
    intro acc h
    rw [keyFold]
    by_cases hm : k ∈ acc
    · simpa [hm] using ih acc h
    · refine ih _ ?_
      rw [if_neg hm]
      refine h.append (List.nodup_singleton k) ?_
      intro a ha hb
      rw [List.mem_singleton] at hb
      exact hm (hb ▸ ha)

theorem keyFold_toFinset : ∀ (ks acc : List String),
    (keyFold ks acc).toFinset = acc.toFinset ∪ ks.toFinset := by
  intro ks
  induction ks with
  | nil => intro acc; simp [keyFold]
  | cons k rest ih =>
    intro acc
    rw [keyFold, ih]
    by_cases hm : k ∈ acc
    · rw [if_pos hm]
      have hk : k ∈ acc.toFinset := List.mem_toFinset.mpr hm
      ext a
      simp only [Finset.mem_union, List.mem_toFinset, List.mem_cons]
      constructor
      · rintro (ha | ha)
        · exact Or.inl ha
        · exact Or.inr (Or.inr ha)
      · rintro (ha | rfl | ha)
        · exact Or.inl ha
        · exact Or.inl hm
        · exact Or.inr ha
    · rw [if_neg hm, List.toFinset_append]
      ext a
      simp only [Finset.mem_union, List.mem_toFinset, List.mem_cons, List.mem_singleton]
      tauto

theorem keyFold_length_dedup (ks : List String) :
    (keyFold ks []).length = ks.dedup.length := by
  have h1 : (keyFold ks []).Nodup := keyFold_nodup ks [] List.nodup_nil
  have h2 : (keyFold ks []).toFinset = ks.toFinset := by
    rw [keyFold_toFinset]
    simp
  calc (keyFold ks []).length
      = (keyFold ks []).toFinset.card := (List.toFinset_card_of_nodup h1).symm
    _ = ks.toFinset.card := by rw [h2]
    _ = ks.dedup.length := List.card_toFinset ks

theorem runCalls_keys : ∀ (calls : List (Nat × ZKProof)) (st : VState),
    (runCalls calls st).map Prod.fst =
      keyFold ((calls.filter fun c => c.1 ≤ c.2.expiration).map fun c => c.2.proof_id)
        (st.map Prod.fst) := by
  intro calls
  induction calls with
  | nil => intro st; simp [runCalls, keyFold]
  | cons c rest ih =>
    intro st
    by_cases hc : c.1 > c.2.expiration
    · have hst : (verify_proof c.1 c.2 st).2 = st := by
        simp [verify_proof, hc]
      have hf : decide (c.1 ≤ c.2.expiration) = false := by
        simp
        omega
      rw [runCalls, hst, ih, List.filter_cons, hf]
      simp
    · have hst : (verify_proof c.1 c.2 st).2 =
          dictInsert st c.2.proof_id (verifyResult c.1 c.2) := by
        simp [verify_proof, hc]
      have hf : decide (c.1 ≤ c.2.expiration) = true := by
        simp
        omega
      rw [runCalls, hst, ih, List.filter_cons, hf]
      simp only [List.map_cons, keyFold, dictInsert_keys]

theorem batchGo_res_keys (now : Nat) : ∀ (proofs : List ZKProof)
    (v iv : Nat) (res : List (String × VerificationResult)) (st : VState),
    ((batchGo now proofs (v, iv, res, st)).2.2.1).map Prod.fst =
      keyFold (proofs.map ZKProof.proof_id) (res.map Prod.fst) := by
  intro proofs
  induction proofs with
  | nil => intro v iv res st; simp [batchGo, keyFold]
  | cons p rest ih =>
    intro v iv res st
    rw [batchGo, ih]
    simp only [List.map_cons, keyFold, dictInsert_keys]

theorem filter_not_length {α : Type} (f : α → Bool) (l : List α) :
    (l.filter f).length + (l.filter fun x => !f x).length = l.length := by
  induction l with
  | nil => rfl
  | cons x xs ih =>
    cases hf : f x <;> simp [List.filter_cons, hf] <;> omega

theorem batchGo_counts (now : Nat) : ∀ (proofs : List ZKProof)
    (v iv : Nat) (res : List (String × VerificationResult)) (st : VState),
    (batchGo now proofs (v, iv, res, st)).1 =
      v + (proofs.filter fun p => (verifyResult now p).is_valid).length ∧
    (batchGo now proofs (v, iv, res, st)).2.1 =
      iv + (proofs.filter fun p => !(verifyResult now p).is_valid).length := by
  intro proofs
  induction proofs with
  | nil => intro v iv res st; simp [batchGo]
  | cons p rest ih =>
    intro v iv res st
    rw [batchGo]
    simp only [verify_proof_fst]
    cases hv : (verifyResult now p).is_valid <;>
      · constructor
        · rw [(ih _ _ _ _).1]
          simp [List.filter_cons, hv]
          try omega
        · rw [(ih _ _ _ _).2]
          simp [List.filter_cons, hv]
          try omega

/-! ### Claim theorems -/

/-- C1: the claim says a verifier sharing the prover's secret accepts any
unexpired, unmodified generated proof (`is_valid = true`), its signature
check recomputing the prover's MAC.  The code refutes this: the prover
attaches an HMAC-SHA-256 keyed by its secret, while the verifier
recomputes a plain unkeyed SHA-256, so the signature check fails on every
honestly generated proof and verification of a fresh (unexpired)
ownership proof returns `is_valid = false` with the error
`"Proof signature invalid"` recorded. -/
theorem c1_honest_proofs_rejected_by_signature_check
    (seed address pkh : String) (t : Nat) :
    verify_proof_signature (generate_ownership_proof seed address pkh t) = false ∧
    (verifyResult t (generate_ownership_proof seed address pkh t)).is_valid = false ∧
    "Proof signature invalid" ∈
      (verifyResult t (generate_ownership_proof seed address pkh t)).errors := by
  set p := generate_ownership_proof seed address pkh t with hp
  have hsig : verify_proof_signature p = false := by
    simp [hp, generate_ownership_proof, verify_proof_signature, sign_proof]
  have hexp : ¬ (t > p.expiration) := by
    simp [hp, generate_ownership_proof]
  have hpy : pyIn "address_owned"
      (joinSpace ["address_" ++ address, "address_owned"]) = true :=
    pyIn_last ("address_" ++ address) "address_owned"
  have htr : verify_by_type p =
      { details := [("ownership_verified", .bool true),
                    ("verification_method", .str "zk_proof")]
        warnings := []
        errorsOpt := none } := by
    have hty : p.proof_type = ProofType.address_ownership := by
      simp [hp, generate_ownership_proof]
    simp [verify_by_type, hty, verify_ownership_proof, hpy, simulate_zk_verification,
      hp, generate_ownership_proof, simulate_proof_generation, dictGet, hexFormatOk,
      PyAtom.truthy]
  refine ⟨hsig, ?_, ?_⟩ <;>
    cases hs : verify_proof_structure t p <;>
      simp [verifyResult, hsig, htr, hexp, hs]

/-- C2: the claim says confidence at age 0 equals the per-type base minus
a fixed 15-point simulated-payload penalty, and confidence past 30
minutes is at most `base − 15 − 20`.  The code refutes this: the penalty
reads `simulated_proof` from the verification result's `details` dict,
which no type checker ever sets (the flag lives in `proof_data`), so for
a proof that passes every check (ownership base 90) the confidence at
age 0 is 90, not 75, the `details` carry no `simulated_proof` key, and at
age 31 minutes the confidence is 70, above the claimed bound 55. -/
theorem c2_simulated_penalty_never_applied :
    (verifyResult 1000 exCraftedProof).is_valid = true ∧
    (verifyResult 1000 exCraftedProof).confidence = 90 ∧
    dictGet (verifyResult 1000 exCraftedProof).details "simulated_proof" = none ∧
    (verifyResult 2860 exCraftedProof).is_valid = true ∧
    (verifyResult 2860 exCraftedProof).confidence = 70 ∧
    ¬ (verifyResult 2860 exCraftedProof).confidence ≤ 90 - 15 - 20 := by
  decide

/-- C3 (counterexample): for a concrete balance-range proof, which does
carry its `balance_in_range` token verbatim, the verifier's type-specific
semantic check nevertheless records the missing-claim error
`"Amount range claim missing"`, refuting the claim that it finds the
required tokens present and records no missing-claim error. -/
theorem c3_counterexample :
    "balance_in_range" ∈
      (generate_balance_range_proof "sovereign_identity_guardian_secret" 7 1 10 1000).public_inputs ∧
    verify_by_type (generate_balance_range_proof "sovereign_identity_guardian_secret" 7 1 10 1000) =
      { details := [], warnings := []
        errorsOpt := some ["Amount range claim missing"] } := by
  decide

/-- C3 (amended): balance-range and wealth-threshold proofs carry their
`balance_in_range` / `wealth_requirement_met` tokens verbatim, but both
are issued with proof type `AMOUNT_RANGE`, whose semantic check requires
the token `amount_in_range`; neither specialization carries it, so the
check always records the missing-claim error
`"Amount range claim missing"` for them. -/
theorem c3_specialized_proofs_fail_amount_range_check
    (seed : String) (bal mn mx assets th : Int) (t : Nat) :
    "balance_in_range" ∈ (generate_balance_range_proof seed bal mn mx t).public_inputs ∧
    verify_by_type (generate_balance_range_proof seed bal mn mx t) =
      { details := [], warnings := []
        errorsOpt := some ["Amount range claim missing"] } ∧
    "wealth_requirement_met" ∈ (generate_wealth_proof seed assets th t).public_inputs ∧
    verify_by_type (generate_wealth_proof seed assets th t) =
      { details := [], warnings := []
        errorsOpt := some ["Amount range claim missing"] } := by
  refine ⟨?_, ?_, ?_, ?_⟩
  · simp [generate_balance_range_proof]
  · have hty : (generate_balance_range_proof seed bal mn mx t).proof_type =
        ProofType.amount_range := by
      simp [generate_balance_range_proof]
    have hin : (generate_balance_range_proof seed bal mn mx t).public_inputs =
        ["min_balance_" ++ toString mn, "max_balance_" ++ toString mx,
         "balance_in_range"] := by
      simp [generate_balance_range_proof]
    simp [verify_by_type, hty, verify_amount_range_proof, hin,
      no_amount_token_in_balance_range]
  · simp [generate_wealth_proof]
  · have hty : (generate_wealth_proof seed assets th t).proof_type =
        ProofType.amount_range := by
      simp [generate_wealth_proof]
    have hin : (generate_wealth_proof seed assets th t).public_inputs =
        ["wealth_threshold_" ++ toString th, "wealth_requirement_met"] := by
      simp [generate_wealth_proof]
    simp [verify_by_type, hty, verify_amount_range_proof, hin,
      no_amount_token_in_wealth]

/-- C4 (counterexample): the wealth-threshold specialization is issued
with a 2-hour validity window (7200 s), not the 1-hour window the claim
assigns to amount-range proofs and their specializations. -/
theorem c4_counterexample :
    (generate_wealth_proof "sovereign_identity_guardian_secret" 100 50 1000).expiration =
      (generate_wealth_proof "sovereign_identity_guardian_secret" 100 50 1000).timestamp + 7200 ∧
    ¬ (generate_wealth_proof "sovereign_identity_guardian_secret" 100 50 1000).expiration =
      (generate_wealth_proof "sovereign_identity_guardian_secret" 100 50 1000).timestamp + 3600 := by
  decide

/-- C4 (amended): every generated proof's validity window is the fixed
constant of its generator — balance-sufficiency 1 h, ownership 2 h,
transaction validity 30 min, amount-range 1 h, no-double-spend 15 min,
balance-range 1 h — except that the wealth-threshold specialization uses
2 h (not 1 h); age and KYC proof generation never returns a proof at all
(the `ProofType("identity_verification")` lookup raises `ValueError`),
so their 24-hour / 7-day constants are never attached to a proof.  The
final two conjuncts exhibit inputs on which the fallible generators do
return a proof. -/
theorem c4_validity_windows :
    (∀ (seed : String) (td : TxData) (bal : Int) (t : Nat),
      (generate_balance_proof seed td bal t).all
        (fun p => p.expiration == p.timestamp + 3600) = true) ∧
    (∀ (seed addr pkh : String) (t : Nat),
      (generate_ownership_proof seed addr pkh t).expiration =
        (generate_ownership_proof seed addr pkh t).timestamp + 7200) ∧
    (∀ (seed : String) (td : TxData) (sp : SecretParams) (t : Nat),
      (generate_transaction_validity_proof seed td sp t).all
        (fun p => p.expiration == p.timestamp + 1800) = true) ∧
    (∀ (seed : String) (td : TxData) (amt : Int) (t : Nat),
      (generate_amount_range_proof seed td amt t).expiration =
        (generate_amount_range_proof seed td amt t).timestamp + 3600) ∧
    (∀ (seed : String) (td : TxData) (utxos : List String) (t : Nat),
      (generate_no_double_spend_proof seed td utxos t).expiration =
        (generate_no_double_spend_proof seed td utxos t).timestamp + 900) ∧
    (∀ (seed : String) (bal mn mx : Int) (t : Nat),
      (generate_balance_range_proof seed bal mn mx t).expiration =
        (generate_balance_range_proof seed bal mn mx t).timestamp + 3600) ∧
    (∀ (seed : String) (assets th : Int) (t : Nat),
      (generate_wealth_proof seed assets th t).expiration =
        (generate_wealth_proof seed assets th t).timestamp + 7200) ∧
    (∀ (seed : String) (a m : Int) (t : Nat), generate_age_proof seed a m t = none) ∧
    (∀ (seed : String) (k : Bool) (lvl : String) (t : Nat),
      generate_kyc_proof seed k lvl t = none) ∧
    (generate_balance_proof "s" exTx 5 1000).isSome = true ∧
    (generate_transaction_validity_proof "s" exTx {} 1000).isSome = true := by
  refine ⟨?_, ?_, ?_, ?_, ?_, ?_, ?_, ?_, ?_, ?_, ?_⟩
  · intro seed td bal t
    cases h : calculate_required_amount td <;>
      simp [generate_balance_proof, h, Option.all]
  · intro seed addr pkh t
    simp [generate_ownership_proof]
  · intro seed td sp t
    cases h : get_value_range td <;>
      simp [generate_transaction_validity_proof, h, Option.all]
  · intro seed td amt t
    simp [generate_amount_range_proof]
  · intro seed td utxos t
    simp [generate_no_double_spend_proof]
  · intro seed bal mn mx t
    simp [generate_balance_range_proof]
  · intro seed assets th t
    simp [generate_wealth_proof]
  · intro seed a m t
    rfl
  · intro seed k lvl t
    rfl
  · decide
  · decide

/-- C5: the claim says every `Proof` round-trips through the canonical
text encoding and verifies identically.  The code refutes this at every
input: `proof_to_json` runs `json.dumps` on `proof.__dict__`, whose
`proof_type` value is a `ProofType` enum member, which `json.dumps`
rejects with `TypeError`, so serialization never succeeds and no round
trip exists for any proof. -/
theorem c5_proof_to_json_raises (p : ZKProof) :
    proof_to_json p = .error "Object of type ProofType is not JSON serializable" :=
  rfl

/-- C6 (counterexample): the registered amount-range circuit carries
complexity tier `"low"`, but the weighted-sum bucketing of its parameters
(`1200 + 10·2 + 20·1 = 1240`) yields `"medium"`, refuting the claim that
every registered tier equals the bucketing. -/
theorem c6_counterexample :
    (initialize_circuits .amount_range).complexity = "low" ∧
    calculate_proof_complexity (initialize_circuits .amount_range).constraints
      (initialize_circuits .amount_range).public_inputs
      (initialize_circuits .amount_range).private_inputs = "medium" ∧
    "low" ≠ "medium" := by
  decide

/-- C6 (amended): the registry's tiers are hardcoded.  They agree with
the weighted-sum bucketing `constraints + 10·public + 20·private` for the
balance-sufficiency, address-ownership and gas-sufficiency circuits, but
disagree for the other three: transaction-validity (2610) and
no-double-spend (2080) are registered `"high"` where the formula yields
`"medium"`, and amount-range (1240) is registered `"low"` where the
formula yields `"medium"`. -/
theorem c6_complexity_tiers :
    (calculate_proof_complexity 1500 3 2 = "medium" ∧
      (initialize_circuits .balance_sufficiency).complexity = "medium") ∧
    (calculate_proof_complexity 800 2 1 = "low" ∧
      (initialize_circuits .address_ownership).complexity = "low") ∧
    (calculate_proof_complexity 1000 3 2 = "medium" ∧
      (initialize_circuits .gas_sufficiency).complexity = "medium") ∧
    (calculate_proof_complexity 2500 5 3 = "medium" ∧
      (initialize_circuits .transaction_validity).complexity = "high") ∧
    (calculate_proof_complexity 2000 4 2 = "medium" ∧
      (initialize_circuits .no_double_spend).complexity = "high") ∧
    (calculate_proof_complexity 1200 2 1 = "medium" ∧
      (initialize_circuits .amount_range).complexity = "low") := by
  decide

/-- C7: verifying any proof strictly after its expiration returns
`is_valid = false` with confidence 0, the error `"Proof has expired"`
recorded, and the `expired` detail set, leaving the cache untouched
(the expired path returns before the cache write); and the outcome is
unchanged under arbitrary replacement of the signature, payload, public
inputs, verification key and creation timestamp, so no signature,
structure or type-specific check influences it. -/
theorem c7_expired_short_circuit (p : ZKProof) (st : VState) (k : Nat) :
    verify_proof (p.expiration + k + 1) p st =
      ({ is_valid := false
         proof_id := p.proof_id
         proof_type := p.proof_type.value
         confidence := 0
         details := [("expired", .bool true)]
         warnings := []
         errors := ["Proof has expired"] }, st) ∧
    (∀ (sig : Option Digest) (pd : List (String × PyAtom)) (pi : List String)
        (vk : String) (ts : Nat),
      verify_proof (p.expiration + k + 1)
        { p with signature := sig, proof_data := pd, public_inputs := pi,
                 verification_key := vk, timestamp := ts } st =
        verify_proof (p.expiration + k + 1) p st) := by
  have h : p.expiration + k + 1 > p.expiration := by omega
  constructor
  · simp [verify_proof, verifyResult, h]
  · intro sig pd pi vk ts
    simp [verify_proof, verifyResult, h]

/-- C8 (counterexample): batch verification of the two-element list
`[p, p]` (the same proof twice) reports `total_proofs = 2` and counts
both verifications (`valid_proofs = 2`), but its `results` map, keyed by
`proof_id`, holds a single entry, refuting the claim that the map
contains exactly N entries for every list of N proofs. -/
theorem c8_counterexample :
    (batch_verify_proofs 1000 [exCraftedProof, exCraftedProof] []).1.total_proofs = 2 ∧
    (batch_verify_proofs 1000 [exCraftedProof, exCraftedProof] []).1.valid_proofs = 2 ∧
    (batch_verify_proofs 1000 [exCraftedProof, exCraftedProof] []).1.invalid_proofs = 0 ∧
    (batch_verify_proofs 1000 [exCraftedProof, exCraftedProof] []).1.results.length = 1 ∧
    (1 : Nat) ≠ 2 := by
  decide

/-- C8 (amended): batch verification verifies the proofs independently
and in order, never aborts on a failing proof, and returns
`valid_proofs = N − M` and `invalid_proofs = M` where M is the number of
individually invalid proofs; its `results` map, keyed by `proof_id`,
holds one entry per distinct proof id — exactly N entries only when the
ids are pairwise distinct, duplicates collapsing to the last result. -/
theorem c8_batch_counts_and_results (now : Nat) (st : VState) (proofs : List ZKProof) :
    (batch_verify_proofs now proofs st).1.total_proofs = proofs.length ∧
    (batch_verify_proofs now proofs st).1.valid_proofs =
      (proofs.filter fun p => (verifyResult now p).is_valid).length ∧
    (batch_verify_proofs now proofs st).1.valid_proofs +
      (batch_verify_proofs now proofs st).1.invalid_proofs = proofs.length ∧
    (batch_verify_proofs now proofs st).1.results.length =
      (proofs.map ZKProof.proof_id).dedup.length := by
  have hc := batchGo_counts now proofs 0 0 [] st
  have hk := batchGo_res_keys now proofs 0 0 [] st
  refine ⟨rfl, ?_, ?_, ?_⟩
  · simpa [batch_verify_proofs] using hc.1
  · have h2 := filter_not_length (fun p => (verifyResult now p).is_valid) proofs
    simp only [batch_verify_proofs]
    rw [hc.1, hc.2]
    omega
  · have h1 : (batch_verify_proofs now proofs st).1.results.length =
        ((batch_verify_proofs now proofs st).1.results.map Prod.fst).length :=
      (List.length_map _ _).symm
    rw [h1]
    simp only [batch_verify_proofs]
    rw [hk]
    simpa using keyFold_length_dedup (proofs.map ZKProof.proof_id)

/-- C9 (counterexample): a single verification call on an expired proof
is not recorded (the expired path returns before caching), so the stats
report 0 total verifications, not 1; and two calls on the same proof id
overwrite one cache entry, so the stats report 1 total and 1 successful
verification, not 2 — refuting the claim that the statistics count every
call, including expired and repeated ones. -/
theorem c9_counterexample :
    (get_verification_stats (runCalls [(5000, exCraftedProof)] [])).total_verifications = 0 ∧
    (0 : Nat) ≠ 1 ∧
    (get_verification_stats
      (runCalls [(1000, exCraftedProof), (1001, exCraftedProof)] [])).total_verifications = 1 ∧
    (get_verification_stats
      (runCalls [(1000, exCraftedProof), (1001, exCraftedProof)] [])).successful_verifications = 1 ∧
    (1 : Nat) ≠ 2 := by
  decide

/-- C9 (amended): the statistics are derived from the verification
cache: total verifications equals the number of distinct proof ids among
the calls that passed the expiration check (expired calls are never
cached; repeated calls on one id overwrite), the success count is the
number of cached results with `is_valid = true` (hence at most the
total), and the success rate is `successful / total · 100` with 0 when
the cache is empty. -/
theorem c9_stats_from_cache (calls : List (Nat × ZKProof)) :
    (get_verification_stats (runCalls calls [])).total_verifications =
      ((calls.filter fun c => c.1 ≤ c.2.expiration).map fun c => c.2.proof_id).dedup.length ∧
    (get_verification_stats (runCalls calls [])).successful_verifications =
      ((runCalls calls []).filter fun e => e.2.is_valid).length ∧
    (get_verification_stats (runCalls calls [])).successful_verifications ≤
      (get_verification_stats (runCalls calls [])).total_verifications ∧
    (get_verification_stats (runCalls calls [])).success_rate =
      (if (get_verification_stats (runCalls calls [])).total_verifications = 0 then 0
       else ((get_verification_stats (runCalls calls [])).successful_verifications : ℚ) /
         ((get_verification_stats (runCalls calls [])).total_verifications : ℚ) * 100) := by
  have hk := runCalls_keys calls []
  refine ⟨?_, rfl, ?_, ?_⟩
  · have h1 : (runCalls calls []).length = ((runCalls calls []).map Prod.fst).length :=
      (List.length_map _ _).symm
    show (runCalls calls []).length = _
    rw [h1, hk]
    simpa using keyFold_length_dedup _
  · exact List.length_filter_le _ _
  · by_cases hz : (runCalls calls []).length = 0 <;>
      simp [get_verification_stats, hz]

/-- C10: the balance semantic check tests substring containment on the
space-joined public inputs, not element equality: the missing-claim
error appears exactly when `balance_sufficient` does not occur as a
substring of the joined string, and a proof whose only public input is
`not_balance_sufficient_x` — no element of which equals the token —
still passes the check with no error recorded. -/
theorem c10_substring_token_matching :
    (∀ p : ZKProof,
      (verify_balance_proof p).errorsOpt = some ["Balance sufficiency claim missing"]
        ↔ pyIn "balance_sufficient" (joinSpace p.public_inputs) = false) ∧
    ("balance_sufficient" ∉ exSubstringProof.public_inputs ∧
     pyIn "balance_sufficient" (joinSpace exSubstringProof.public_inputs) = true ∧
     (verify_balance_proof exSubstringProof).errorsOpt = none) := by
  constructor
  · intro p
    cases h : pyIn "balance_sufficient" (joinSpace p.public_inputs)
    · simp [verify_balance_proof, h]
    · simp only [verify_balance_proof, h]
      split
      · simp_all
      · split
        · simp
        · split <;> simp
  · decide
